import Mathlib

/-!
Verification of the asthma-monitoring backend.

A shallow embedding of `backend/app/ml/predictor.py`,
`backend/app/database.py` and `backend/app/routes/sensor_data.py`.
Vitals, scores and probabilities are modelled as exact rationals,
timestamps as integers (seconds), risk levels as the strings the code
stores, and the database as explicit in-memory lists threaded through
the route handlers.  The primary classifier's numeric output (class
probabilities and discrete class) and its possible failure are an
explicit `Except` parameter, since the fitted model itself is an
external artifact.
-/

namespace AsthmaMonitor

/-- The five vitals of a sensor reading, as passed to the predictor
(`sensor_dict` in `receive_sensor_data`). -/
structure SensorData where
  heart_rate : ℚ
  spo2 : ℚ
  temperature : ℚ
  humidity : ℚ
  air_quality : ℚ
deriving Repr, DecidableEq

/-- The request body of the ingestion endpoint (`SensorDataInput` in
`models.py`): the five vitals plus a device identifier. -/
structure SensorDataInput where
  heart_rate : ℚ
  spo2 : ℚ
  temperature : ℚ
  humidity : ℚ
  air_quality : ℚ
  device_id : String
deriving Repr, DecidableEq

/-- The dict the route builds from the request body before calling the
predictor (`sensor_dict` in `receive_sensor_data`). -/
def SensorDataInput.sensor_dict (d : SensorDataInput) : SensorData :=
  ⟨d.heart_rate, d.spo2, d.temperature, d.humidity, d.air_quality⟩

/-- The tuple returned by `HealthPredictor.predict`:
(risk_level, risk_score, confidence, recommendations). -/
structure Prediction where
  risk_level : String
  risk_score : ℚ
  confidence : ℚ
  recommendations : List String
deriving Repr, DecidableEq

/-- The closing recommendation keyed by risk level: the final
`if risk_level == "High" / elif "Moderate" / else` block of
`_generate_recommendations`. -/
def closing_recommendation (risk_level : String) : String :=
  if risk_level = "High" then
    "🚨 HIGH RISK: Contact healthcare provider immediately!"
  else if risk_level = "Moderate" then
    "⚠️ MODERATE RISK: Monitor vitals every 15 minutes."
  else
    "✅ All vitals within normal range. Continue monitoring."

/-- `HealthPredictor._generate_recommendations`: per-vital threshold
checks append canned messages in a fixed order, then one closing
message keyed by the risk level; a final guard replaces an empty list
by a default message. -/
def generate_recommendations (s : SensorData) (risk_level : String) : List String :=
  let recs : List String := []
  let recs := if s.heart_rate > 100 then
      recs ++ ["⚠️ Elevated heart rate detected. Rest and monitor closely."]
    else if s.heart_rate < 60 then
      recs ++ ["⚠️ Low heart rate detected. Consult healthcare provider."]
    else recs
  let recs := if s.spo2 < 95 then
      recs ++ ["🚨 Low oxygen saturation. Seek immediate medical attention!"]
    else if s.spo2 < 97 then
      recs ++ ["⚠️ Oxygen levels slightly low. Monitor breathing."]
    else recs
  let recs := if s.temperature > 37.8 then
      recs ++ ["🌡️ Fever detected. Consider fever-reducing medication."]
    else if s.temperature < 36.0 then
      recs ++ ["🌡️ Low body temperature. Keep warm and monitor."]
    else recs
  let recs := if s.air_quality < 70 then
      recs ++ ["💨 Poor air quality. Improve ventilation or use air purifier."]
    else recs
  let recs := if s.humidity > 70 then
      recs ++ ["💧 High humidity. Use dehumidifier for comfort."]
    else if s.humidity < 30 then
      recs ++ ["💧 Low humidity. Consider using humidifier."]
    else recs
  let recs := recs ++ [closing_recommendation risk_level]
  if recs.isEmpty then ["✅ All vitals normal. Stay healthy!"] else recs

/-- The critical/warning tally of `_rule_based_prediction`: each vital
is run through an `if`/`elif` pair bumping `critical_count` or
`warning_count`. -/
def rule_based_tally (s : SensorData) : ℕ × ℕ :=
  let counts : ℕ × ℕ := (0, 0)
  let counts :=
    if s.heart_rate > 100 ∨ s.heart_rate < 60 then (counts.1 + 1, counts.2)
    else if s.heart_rate > 90 ∨ s.heart_rate < 65 then (counts.1, counts.2 + 1)
    else counts
  let counts :=
    if s.spo2 < 95 then (counts.1 + 1, counts.2)
    else if s.spo2 < 97 then (counts.1, counts.2 + 1)
    else counts
  let counts :=
    if s.temperature > 37.8 ∨ s.temperature < 36.0 then (counts.1 + 1, counts.2)
    else if s.temperature > 37.5 ∨ s.temperature < 36.2 then (counts.1, counts.2 + 1)
    else counts
  let counts :=
    if s.air_quality < 50 then (counts.1 + 1, counts.2)
    else if s.air_quality < 70 then (counts.1, counts.2 + 1)
    else counts
  counts

/-- `HealthPredictor._rule_based_prediction`: the rule-based fallback.
Level and score come from the tally; confidence is the fixed 0.75. -/
def rule_based_prediction (s : SensorData) : Prediction :=
  let counts := rule_based_tally s
  let critical_count := counts.1
  let warning_count := counts.2
  let lv_sc : String × ℚ :=
    if critical_count ≥ 2 then ("High", 0.8)
    else if critical_count ≥ 1 ∨ warning_count ≥ 2 then ("Moderate", 0.5)
    else ("Low", 0.2)
  { risk_level := lv_sc.1
    risk_score := lv_sc.2
    confidence := 0.75
    recommendations := generate_recommendations s lv_sc.1 }

/-- The raw output of the fitted 3-class model on one sample: the class
probabilities `predict_proba(X)[0]` (indices 0 Low, 1 Moderate, 2 High)
and the discrete class `model.predict(X)[0]`. -/
structure ModelOutput where
  proba0 : ℚ
  proba1 : ℚ
  proba2 : ℚ
  pred : ℕ
deriving Repr, DecidableEq

/-- `HealthPredictor.predict`.  The `try` body (preprocessing plus the
two model calls) is abstracted as the `outcome` argument: `Except.ok`
carries the model's probabilities and class, `Except.error` stands for
any exception raised on the primary path, which the code catches and
answers with `_rule_based_prediction`. -/
def predict (outcome : Except Unit ModelOutput) (s : SensorData) : Prediction :=
  match outcome with
  | Except.ok m =>
      let risk_score := m.proba0 * 0.0 + m.proba1 * 0.5 + m.proba2 * 1.0
      let risk_level :=
        if m.pred = 2 ∨ risk_score ≥ 0.66 then "High"
        else if m.pred = 1 ∨ risk_score ≥ 0.33 then "Moderate"
        else "Low"
      let confidence := max (max m.proba0 m.proba1) m.proba2
      { risk_level := risk_level
        risk_score := risk_score
        confidence := confidence
        recommendations := generate_recommendations s risk_level }
  | Except.error _ => rule_based_prediction s

/-- A row of the `sensor_readings` table (`SensorReading` in
`database.py`). -/
structure SensorReading where
  id : ℕ
  device_id : String
  heart_rate : ℚ
  spo2 : ℚ
  temperature : ℚ
  humidity : ℚ
  air_quality : ℚ
  risk_level : String
  risk_score : ℚ
  is_critical : Bool
  timestamp : ℤ
deriving Repr, DecidableEq

/-- A row of the `alerts` table (`Alert` in `database.py`). -/
structure Alert where
  id : ℕ
  device_id : String
  alert_type : String
  message : String
  vital_name : Option String
  vital_value : Option ℚ
  is_resolved : Bool
  created_at : ℤ
deriving Repr, DecidableEq

/-- A row of the `system_logs` table (`SystemLog` in `database.py`). -/
structure SystemLog where
  id : ℕ
  event_type : String
  message : String
  device_id : Option String
  timestamp : ℤ
deriving Repr, DecidableEq

/-- The three tables of the database plus the autoincrement counters
the engine keeps for the primary keys. -/
structure SystemState where
  readings : List SensorReading
  alerts : List Alert
  logs : List SystemLog
  next_reading_id : ℕ
  next_alert_id : ℕ
  next_log_id : ℕ
deriving Repr, DecidableEq

/-- The empty database, as produced by `init_db`. -/
def SystemState.empty : SystemState := ⟨[], [], [], 0, 0, 0⟩

/-- The response body of the ingestion and latest-reading endpoints
(`SensorDataResponse` in `models.py`). -/
structure SensorDataResponse where
  id : ℕ
  heart_rate : ℚ
  spo2 : ℚ
  temperature : ℚ
  humidity : ℚ
  air_quality : ℚ
  risk_level : String
  risk_score : ℚ
  device_id : String
  timestamp : ℤ
  is_critical : Bool
deriving Repr, DecidableEq

/-- The response body of the history endpoint (`HistoricalData` in
`models.py`). -/
structure HistoricalData where
  timestamps : List String
  heart_rate : List ℚ
  spo2 : List ℚ
  temperature : List ℚ
  risk_scores : List ℚ
deriving Repr, DecidableEq

/-- A FastAPI `HTTPException` as raised by the routes. -/
structure HTTPError where
  status_code : ℕ
  detail : String
deriving Repr, DecidableEq

/-- `database.create_sensor_reading`: insert a row, the engine
assigning the next id. -/
def create_sensor_reading (st : SystemState) (r : SensorReading) : SystemState :=
  { st with readings := st.readings ++ [r], next_reading_id := st.next_reading_id + 1 }

/-- `database.create_alert`: insert an alert row with
`is_resolved = False` and `created_at` defaulted to the current time. -/
def create_alert (st : SystemState) (now : ℤ) (device_id : String)
    (alert_type : String) (message : String)
    (vital_name : Option String) (vital_value : Option ℚ) : SystemState :=
  { st with
    alerts := st.alerts ++
      [{ id := st.next_alert_id
         device_id := device_id
         alert_type := alert_type
         message := message
         vital_name := vital_name
         vital_value := vital_value
         is_resolved := false
         created_at := now }]
    next_alert_id := st.next_alert_id + 1 }

/-- `database.log_system_event`: insert a log row with `timestamp`
defaulted to the current time. -/
def log_system_event (st : SystemState) (now : ℤ) (event_type : String)
    (message : String) (device_id : Option String) : SystemState :=
  { st with
    logs := st.logs ++
      [{ id := st.next_log_id
         event_type := event_type
         message := message
         device_id := device_id
         timestamp := now }]
    next_log_id := st.next_log_id + 1 }

/-- Rendering of Python's `f"{risk_score:.2f}"`; the exact decimal
rendering is immaterial to every claim, only that the message is a
function of the score. -/
def format_score (q : ℚ) : String := toString q

/-- The retention cleanup inlined in `receive_sensor_data`: delete
every `SensorReading` row whose `timestamp` is strictly before
`utcnow() - timedelta(hours=24)`. -/
def cleanup_old_readings (st : SystemState) (now : ℤ) : SystemState :=
  { st with readings := st.readings.filter (fun r => ¬ (r.timestamp < now - 24 * 3600)) }

/-- `receive_sensor_data` (POST `/api/sensor-data/`): classify, store
the reading, run the retention cleanup, then the deferred alert
creation (only when critical) and event-log write.  The background
tasks run after the response is built but their effect on the store is
included in the resulting state. -/
def receive_sensor_data (st : SystemState) (data : SensorDataInput) (now : ℤ)
    (outcome : Except Unit ModelOutput) : SystemState × SensorDataResponse :=
  let p := predict outcome data.sensor_dict
  let is_critical := p.risk_level = "High"
  let reading : SensorReading :=
    { id := st.next_reading_id
      device_id := data.device_id
      heart_rate := data.heart_rate
      spo2 := data.spo2
      temperature := data.temperature
      humidity := data.humidity
      air_quality := data.air_quality
      risk_level := p.risk_level
      risk_score := p.risk_score
      is_critical := is_critical
      timestamp := now }
  let st := create_sensor_reading st reading
  let st := cleanup_old_readings st now
  let st :=
    if is_critical then
      create_alert st now data.device_id "CRITICAL"
        ("High risk detected! Risk score: " ++ format_score p.risk_score)
        (some "risk_level") (some p.risk_score)
    else st
  let st := log_system_event st now "DATA_RECEIVED"
    ("Sensor data received - Risk: " ++ p.risk_level) (some data.device_id)
  (st,
   { id := reading.id
     heart_rate := reading.heart_rate
     spo2 := reading.spo2
     temperature := reading.temperature
     humidity := reading.humidity
     air_quality := reading.air_quality
     risk_level := reading.risk_level
     risk_score := reading.risk_score
     device_id := reading.device_id
     timestamp := reading.timestamp
     is_critical := reading.is_critical })

/-- Insertion sort by descending timestamp, modelling
`order_by(SensorReading.timestamp.desc())`. -/
def insert_desc (r : SensorReading) : List SensorReading → List SensorReading
  | [] => [r]
  | x :: xs => if x.timestamp ≤ r.timestamp then r :: x :: xs else x :: insert_desc r xs

/-- Sort a list of readings by descending timestamp. -/
def sort_desc (l : List SensorReading) : List SensorReading :=
  l.foldr insert_desc []

/-- `database.get_latest_readings`: filter by device only when the
device id is truthy (`if device_id:` — a non-empty string), order by
descending timestamp, truncate to `limit`.  For an empty device id the
filter is skipped and all devices' readings are considered. -/
def get_latest_readings (st : SystemState) (device_id : String) (limit : ℕ) :
    List SensorReading :=
  let query := st.readings
  let query :=
    if device_id ≠ "" then query.filter (fun r => r.device_id = device_id)
    else query
  (sort_desc query).take limit

/-- `get_latest_reading` (GET `/api/sensor-data/latest`): the most
recent reading of the device, or a 404 when there is none. -/
def get_latest_reading (st : SystemState) (device_id : String) :
    Except HTTPError SensorDataResponse :=
  match get_latest_readings st device_id 1 with
  | [] => Except.error ⟨404, "No readings found"⟩
  | reading :: _ =>
      Except.ok
        { id := reading.id
          heart_rate := reading.heart_rate
          spo2 := reading.spo2
          temperature := reading.temperature
          humidity := reading.humidity
          air_quality := reading.air_quality
          risk_level := reading.risk_level
          risk_score := reading.risk_score
          device_id := reading.device_id
          timestamp := reading.timestamp
          is_critical := reading.is_critical }

/-- Rendering of `timestamp.strftime("%H:%M:%S")`; the exact clock
formatting is immaterial to every claim. -/
def format_time (t : ℤ) : String := toString t

/-- Insertion sort by ascending timestamp, modelling
`order_by(SensorReading.timestamp.asc())`. -/
def insert_asc (r : SensorReading) : List SensorReading → List SensorReading
  | [] => [r]
  | x :: xs => if r.timestamp ≤ x.timestamp then r :: x :: xs else x :: insert_asc r xs

/-- Sort a list of readings by ascending timestamp. -/
def sort_asc (l : List SensorReading) : List SensorReading :=
  l.foldr insert_asc []

/-- `get_historical_data` (GET `/api/sensor-data/history`): readings of
the device in the last `hours` hours, in ascending time order, split
into parallel columns; empty columns when nothing matches. -/
def get_historical_data (st : SystemState) (device_id : String) (hours : ℤ)
    (now : ℤ) : HistoricalData :=
  let cutoff_time := now - hours * 3600
  let readings := sort_asc (st.readings.filter
    (fun r => r.device_id = device_id ∧ r.timestamp ≥ cutoff_time))
  if readings.isEmpty then
    { timestamps := [], heart_rate := [], spo2 := [], temperature := [], risk_scores := [] }
  else
    { timestamps := readings.map (fun r => format_time r.timestamp)
      heart_rate := readings.map (fun r => r.heart_rate)
      spo2 := readings.map (fun r => r.spo2)
      temperature := readings.map (fun r => r.temperature)
      risk_scores := readings.map (fun r => r.risk_score) }

/-- A severity tier of a single vital, following the spec's design
note that each rule check is a pure function per vital returning a
severity tier. -/
inductive Tier where
  | critical
  | warning
  | normal
deriving Repr, DecidableEq

/-- The heart-rate bands of `_rule_based_prediction`. -/
def heart_rate_tier (x : ℚ) : Tier :=
  if x > 100 ∨ x < 60 then Tier.critical
  else if x > 90 ∨ x < 65 then Tier.warning
  else Tier.normal

/-- The SpO2 bands of `_rule_based_prediction`. -/
def spo2_tier (x : ℚ) : Tier :=
  if x < 95 then Tier.critical
  else if x < 97 then Tier.warning
  else Tier.normal

/-- The temperature bands of `_rule_based_prediction`. -/
def temperature_tier (x : ℚ) : Tier :=
  if x > 37.8 ∨ x < 36.0 then Tier.critical
  else if x > 37.5 ∨ x < 36.2 then Tier.warning
  else Tier.normal

/-- The air-quality bands of `_rule_based_prediction`. -/
def air_quality_tier (x : ℚ) : Tier :=
  if x < 50 then Tier.critical
  else if x < 70 then Tier.warning
  else Tier.normal

/-- The tiers of the vitals that `_rule_based_prediction` actually
examines, in source order.  Humidity does not appear: the fallback
never reads it. -/
def vital_tiers (s : SensorData) : List Tier :=
  [heart_rate_tier s.heart_rate, spo2_tier s.spo2,
   temperature_tier s.temperature, air_quality_tier s.air_quality]

/-- Folding one vital's tier into the running (critical, warning)
tally, as one `if`/`elif` block of `_rule_based_prediction` does. -/
def tier_step (t : Tier) (p : ℕ × ℕ) : ℕ × ℕ :=
  match t with
  | Tier.critical => (p.1 + 1, p.2)
  | Tier.warning => (p.1, p.2 + 1)
  | Tier.normal => p

/-- Invariant: every reading row stored in the database carries one of
the three valid risk-level strings. -/
def valid_store (st : SystemState) : Prop :=
  ∀ r ∈ st.readings,
    r.risk_level = "Low" ∨ r.risk_level = "Moderate" ∨ r.risk_level = "High"

/-- Helper: the final empty-list guard of `_generate_recommendations`
never fires, since a closing message was just appended. -/
theorem guard_append_singleton (l d : List String) (c : String) :
    (if (l ++ [c]).isEmpty then d else l ++ [c]) = l ++ [c] := by
  simp

/-- Helper: the recommendation list always ends with the closing
message of its risk level and is in particular non-empty. -/
theorem generate_recommendations_last (s : SensorData) (lv : String) :
    generate_recommendations s lv ≠ [] ∧
    (generate_recommendations s lv).getLast? = some (closing_recommendation lv) := by
  simp only [generate_recommendations]
  rw [guard_append_singleton]
  constructor
  · simp
  · rw [List.getLast?_append_cons]
    rfl

/-- C5: a failure of the primary classifier path is caught inside
`predict` and replaced by the rule-based fallback's result; the caller
receives an ordinary `Prediction`, never the exception. -/
theorem C5_classifier_failure_falls_back (s : SensorData) :
    predict (Except.error ()) s = rule_based_prediction s := rfl

/-- C2 counterexample: the rule-based fallback does not evaluate
humidity.  No input and no pair of humidity values can ever change the
critical/warning tally, refuting the claim that all five vitals are
evaluated against severity bands and tallied. -/
theorem C2_humidity_never_tallied :
    ¬ ∃ (s : SensorData) (h₁ h₂ : ℚ),
        rule_based_tally { s with humidity := h₁ } ≠
          rule_based_tally { s with humidity := h₂ } := by
  rintro ⟨s, h₁, h₂, hne⟩
  exact hne rfl

/-- Helper: folding four tiers into the tally counts each tier kind. -/
theorem counts_of_steps (t1 t2 t3 t4 : Tier) :
    tier_step t4 (tier_step t3 (tier_step t2 (tier_step t1 (0, 0)))) =
      (([t1, t2, t3, t4]).count Tier.critical, ([t1, t2, t3, t4]).count Tier.warning) := by
  cases t1 <;> cases t2 <;> cases t3 <;> cases t4 <;> rfl

/-- Helper: the heart-rate `if`/`elif` block equals a tier fold. -/
theorem hr_step (x : ℚ) (p : ℕ × ℕ) :
    (if x > 100 ∨ x < 60 then (p.1 + 1, p.2)
     else if x > 90 ∨ x < 65 then (p.1, p.2 + 1)
     else p) = tier_step (heart_rate_tier x) p := by
  simp only [heart_rate_tier]
  split_ifs <;> rfl

/-- Helper: the SpO2 `if`/`elif` block equals a tier fold. -/
theorem spo2_step (x : ℚ) (p : ℕ × ℕ) :
    (if x < 95 then (p.1 + 1, p.2)
     else if x < 97 then (p.1, p.2 + 1)
     else p) = tier_step (spo2_tier x) p := by
  simp only [spo2_tier]
  split_ifs <;> rfl

/-- Helper: the temperature `if`/`elif` block equals a tier fold. -/
theorem temp_step (x : ℚ) (p : ℕ × ℕ) :
    (if x > 37.8 ∨ x < 36.0 then (p.1 + 1, p.2)
     else if x > 37.5 ∨ x < 36.2 then (p.1, p.2 + 1)
     else p) = tier_step (temperature_tier x) p := by
  simp only [temperature_tier]
  split_ifs <;> rfl

/-- Helper: the air-quality `if`/`elif` block equals a tier fold. -/
theorem aq_step (x : ℚ) (p : ℕ × ℕ) :
    (if x < 50 then (p.1 + 1, p.2)
     else if x < 70 then (p.1, p.2 + 1)
     else p) = tier_step (air_quality_tier x) p := by
  simp only [air_quality_tier]
  split_ifs <;> rfl

/-- Helper: the sequential tally of `_rule_based_prediction` is the
fold of the four per-vital tiers. -/
theorem rule_based_tally_eq_steps (s : SensorData) :
    rule_based_tally s =
      tier_step (air_quality_tier s.air_quality)
        (tier_step (temperature_tier s.temperature)
          (tier_step (spo2_tier s.spo2)
            (tier_step (heart_rate_tier s.heart_rate) (0, 0)))) := by
  have h0 : (if s.heart_rate > 100 ∨ s.heart_rate < 60 then ((0 : ℕ) + 1, (0 : ℕ))
      else if s.heart_rate > 90 ∨ s.heart_rate < 65 then ((0 : ℕ), (0 : ℕ) + 1)
      else ((0 : ℕ), (0 : ℕ))) =
      tier_step (heart_rate_tier s.heart_rate) (0, 0) := by
    simp only [heart_rate_tier]
    split_ifs <;> rfl
  simp only [rule_based_tally, hr_step, spo2_step, temp_step, aq_step]
  rw [h0]

/-- Helper: the tally equals the number of critical and of warning
tiers among the examined vitals. -/
theorem rule_based_tally_eq_counts (s : SensorData) :
    rule_based_tally s =
      ((vital_tiers s).count Tier.critical, (vital_tiers s).count Tier.warning) := by
  rw [rule_based_tally_eq_steps]
  simp only [vital_tiers]
  exact counts_of_steps _ _ _ _

/-- Helper: the fallback's level as a function of the tally. -/
theorem rule_based_level_eq (s : SensorData) :
    (rule_based_prediction s).risk_level =
      (if (rule_based_tally s).1 ≥ 2 then "High"
       else if (rule_based_tally s).1 ≥ 1 ∨ (rule_based_tally s).2 ≥ 2 then "Moderate"
       else "Low") := by
  simp only [rule_based_prediction]
  split_ifs <;> rfl

/-- Helper: the fallback's score as a function of the tally. -/
theorem rule_based_score_eq (s : SensorData) :
    (rule_based_prediction s).risk_score =
      (if (rule_based_tally s).1 ≥ 2 then (0.8 : ℚ)
       else if (rule_based_tally s).1 ≥ 1 ∨ (rule_based_tally s).2 ≥ 2 then 0.5
       else 0.2) := by
  simp only [rule_based_prediction]
  split_ifs <;> rfl

/-- C2 (amended): the rule-based fallback evaluates the four vitals
heart rate, SpO2, temperature and air quality (humidity is never
evaluated) against two severity bands each, the tally being the number
of critical and of warning tiers; level is High when the critical
count is at least 2, Moderate when the critical count is at least 1 or
the warning count is at least 2, else Low, with fixed scores
0.8/0.5/0.2 and fixed confidence 0.75. -/
theorem C2_rule_fallback_four_vitals (s : SensorData) :
    rule_based_tally s =
      ((vital_tiers s).count Tier.critical, (vital_tiers s).count Tier.warning) ∧
    (rule_based_prediction s).risk_level =
      (if (rule_based_tally s).1 ≥ 2 then "High"
       else if (rule_based_tally s).1 ≥ 1 ∨ (rule_based_tally s).2 ≥ 2 then "Moderate"
       else "Low") ∧
    (rule_based_prediction s).risk_score =
      (if (rule_based_tally s).1 ≥ 2 then (0.8 : ℚ)
       else if (rule_based_tally s).1 ≥ 1 ∨ (rule_based_tally s).2 ≥ 2 then 0.5
       else 0.2) ∧
    (rule_based_prediction s).confidence = 0.75 :=
  ⟨rule_based_tally_eq_counts s, rule_based_level_eq s, rule_based_score_eq s, rfl⟩

/-- C3: when heart rate lies in [60,100], SpO2 is at least 97,
temperature lies in [36.2,37.5] and air quality is at least 70, with
humidity anywhere in its schema bounds, the rule-based fallback
returns risk level Low with risk score 0.2. -/
theorem C3_normal_band_low (s : SensorData)
    (h1 : 60 ≤ s.heart_rate) (h2 : s.heart_rate ≤ 100)
    (h3 : 97 ≤ s.spo2)
    (h4 : 36.2 ≤ s.temperature) (h5 : s.temperature ≤ 37.5)
    (h6 : 70 ≤ s.air_quality)
    (h7 : 0 ≤ s.humidity) (h8 : s.humidity ≤ 100) :
    (rule_based_prediction s).risk_level = "Low" ∧
    (rule_based_prediction s).risk_score = 0.2 := by
  have ht : rule_based_tally s =
      (0, if s.heart_rate > 90 ∨ s.heart_rate < 65 then 1 else 0) := by
    simp only [rule_based_tally]
    have c1 : ¬ (s.heart_rate > 100 ∨ s.heart_rate < 60) := by
      push_neg
      exact ⟨h2, h1⟩
    have c2 : ¬ (s.spo2 < 95) := by linarith
    have c3 : ¬ (s.spo2 < 97) := by linarith
    have c4 : ¬ (s.temperature > 37.8 ∨ s.temperature < 36.0) := by
      push_neg
      constructor <;> linarith
    have c5 : ¬ (s.temperature > 37.5 ∨ s.temperature < 36.2) := by
      push_neg
      exact ⟨h5, h4⟩
    have c6 : ¬ (s.air_quality < 50) := by linarith
    have c7 : ¬ (s.air_quality < 70) := by linarith
    rw [if_neg c1, if_neg c2, if_neg c3, if_neg c4, if_neg c5, if_neg c6, if_neg c7]
    split_ifs <;> rfl
  have hw : (rule_based_tally s).1 = 0 ∧ (rule_based_tally s).2 ≤ 1 := by
    rw [ht]
    constructor
    · rfl
    · split_ifs <;> simp
  constructor
  · rw [rule_based_level_eq, if_neg, if_neg]
    · rw [not_or]
      exact ⟨by omega, by omega⟩
    · omega
  · rw [rule_based_score_eq, if_neg, if_neg]
    · rw [not_or]
      exact ⟨by omega, by omega⟩
    · omega

/-- Witness for C3 at the example vitals of the input schema. -/
theorem C3_normal_band_low_witness :
    (rule_based_prediction ⟨72, 98, 36.8, 45, 85⟩).risk_level = "Low" ∧
    (rule_based_prediction ⟨72, 98, 36.8, 45, 85⟩).risk_score = 0.2 :=
  C3_normal_band_low ⟨72, 98, 36.8, 45, 85⟩ (by norm_num) (by norm_num) (by norm_num)
    (by norm_num) (by norm_num) (by norm_num) (by norm_num) (by norm_num)

/-- C4: on the primary path the risk score is the fixed weighted sum
of the class probabilities, the confidence is the maximum class
probability, and the level combines the discrete class prediction with
the 0.33/0.66 score thresholds. -/
theorem C4_primary_path_formula (m : ModelOutput) (s : SensorData) :
    (predict (Except.ok m) s).risk_score =
      m.proba0 * 0.0 + m.proba1 * 0.5 + m.proba2 * 1.0 ∧
    (predict (Except.ok m) s).confidence = max (max m.proba0 m.proba1) m.proba2 ∧
    ((predict (Except.ok m) s).risk_level = "High" ↔
      m.pred = 2 ∨ m.proba0 * 0.0 + m.proba1 * 0.5 + m.proba2 * 1.0 ≥ 0.66) ∧
    ((predict (Except.ok m) s).risk_level = "Moderate" ↔
      ¬ (m.pred = 2 ∨ m.proba0 * 0.0 + m.proba1 * 0.5 + m.proba2 * 1.0 ≥ 0.66) ∧
        (m.pred = 1 ∨ m.proba0 * 0.0 + m.proba1 * 0.5 + m.proba2 * 1.0 ≥ 0.33)) ∧
    ((predict (Except.ok m) s).risk_level = "Low" ↔
      ¬ (m.pred = 2 ∨ m.proba0 * 0.0 + m.proba1 * 0.5 + m.proba2 * 1.0 ≥ 0.66) ∧
      ¬ (m.pred = 1 ∨ m.proba0 * 0.0 + m.proba1 * 0.5 + m.proba2 * 1.0 ≥ 0.33)) := by
  refine ⟨rfl, rfl, ?_, ?_, ?_⟩ <;>
    · simp only [predict]
      split_ifs with hh hm <;> simp_all

/-- C6: on both the primary and the fallback path, the returned
recommendation list comes from `_generate_recommendations`, is never
empty, and ends with the closing message keyed by the risk level. -/
theorem C6_recommendations_nonempty (outcome : Except Unit ModelOutput) (s : SensorData) :
    (predict outcome s).recommendations =
      generate_recommendations s (predict outcome s).risk_level ∧
    (predict outcome s).recommendations ≠ [] ∧
    (predict outcome s).recommendations.getLast? =
      some (closing_recommendation (predict outcome s).risk_level) := by
  have hpath : (predict outcome s).recommendations =
      generate_recommendations s (predict outcome s).risk_level := by
    cases outcome with
    | ok m => rfl
    | error e => rfl
  refine ⟨hpath, ?_, ?_⟩
  · rw [hpath]
    exact (generate_recommendations_last s _).1
  · rw [hpath]
    exact (generate_recommendations_last s _).2

/-- C1: ingestion appends exactly one alert, whose `vital_value` is
the risk score, when the classification is High, and appends no alert
otherwise. -/
theorem C1_high_risk_creates_one_alert (st : SystemState) (data : SensorDataInput)
    (now : ℤ) (outcome : Except Unit ModelOutput) :
    (receive_sensor_data st data now outcome).1.alerts =
      st.alerts ++
        (if (predict outcome data.sensor_dict).risk_level = "High" then
          [{ id := st.next_alert_id
             device_id := data.device_id
             alert_type := "CRITICAL"
             message := "High risk detected! Risk score: " ++
               format_score (predict outcome data.sensor_dict).risk_score
             vital_name := some "risk_level"
             vital_value := some (predict outcome data.sensor_dict).risk_score
             is_resolved := false
             created_at := now }]
         else []) := by
  simp only [receive_sensor_data, create_sensor_reading, cleanup_old_readings,
    create_alert, log_system_event]
  split_ifs <;> simp

/-- Helper: the predictor only ever emits the three valid risk-level
strings, on either path. -/
theorem predict_level_valid (outcome : Except Unit ModelOutput) (s : SensorData) :
    (predict outcome s).risk_level = "Low" ∨
    (predict outcome s).risk_level = "Moderate" ∨
    (predict outcome s).risk_level = "High" := by
  cases outcome with
  | ok m =>
      simp only [predict]
      split_ifs <;> simp
  | error e =>
      simp only [predict, rule_based_prediction]
      split_ifs <;> simp

/-- C7: ingestion, the only operation that creates readings, stores
only valid risk levels and thus preserves the store invariant, as does
the retention deletion, and the retention deletion leaves the alerts
table untouched. -/
theorem C7_risk_level_invariant (st : SystemState) (data : SensorDataInput)
    (now : ℤ) (outcome : Except Unit ModelOutput) (h : valid_store st) :
    valid_store (receive_sensor_data st data now outcome).1 ∧
    valid_store (cleanup_old_readings st now) ∧
    (cleanup_old_readings st now).alerts = st.alerts := by
  refine ⟨?_, ?_, rfl⟩
  · intro r hr
    simp only [receive_sensor_data, create_sensor_reading, cleanup_old_readings,
      create_alert, log_system_event] at hr
    split_ifs at hr <;>
      · simp only [List.mem_filter, List.mem_append, List.mem_singleton] at hr
        rcases hr with ⟨hr | hr, -⟩
        · exact h r hr
        · subst hr
          exact predict_level_valid outcome data.sensor_dict
  · intro r hr
    simp only [cleanup_old_readings, List.mem_filter] at hr
    exact h r hr.1

/-- Witness for C7 at the empty store and a fallback-path ingestion. -/
theorem C7_risk_level_invariant_witness :
    valid_store (receive_sensor_data SystemState.empty
      ⟨72, 98, 36.8, 45, 85, "ESP32_001"⟩ 0 (Except.error ())).1 ∧
    valid_store (cleanup_old_readings SystemState.empty 0) ∧
    (cleanup_old_readings SystemState.empty 0).alerts = SystemState.empty.alerts :=
  C7_risk_level_invariant SystemState.empty ⟨72, 98, 36.8, 45, 85, "ESP32_001"⟩ 0
    (Except.error ()) (by intro r hr; simp [SystemState.empty] at hr)

/-- C8: the retention cleanup keeps exactly the readings whose
timestamp is not strictly older than 24 hours before now; in
particular a reading younger than 24 hours is never deleted. -/
theorem C8_retention_cutoff (st : SystemState) (now : ℤ) :
    (∀ r : SensorReading,
        r ∈ (cleanup_old_readings st now).readings ↔
          r ∈ st.readings ∧ ¬ (r.timestamp < now - 24 * 3600)) ∧
    (∀ r ∈ st.readings, now - r.timestamp < 24 * 3600 →
        r ∈ (cleanup_old_readings st now).readings) := by
  constructor
  · intro r
    simp [cleanup_old_readings, List.mem_filter]
  · intro r hr hy
    simp only [cleanup_old_readings, List.mem_filter, decide_eq_true_eq]
    refine ⟨hr, ?_⟩
    omega

/-- Witness for C8: a ten-thousand-second-old reading survives the
cleanup. -/
theorem C8_retention_cutoff_witness :
    (⟨1, "ESP32_001", 72, 98, 36.8, 45, 85, "Low", 0.2, false, 90000⟩ : SensorReading) ∈
      (cleanup_old_readings
        ⟨[⟨0, "ESP32_001", 80, 97, 36.5, 50, 90, "Low", 0.2, false, 0⟩,
          ⟨1, "ESP32_001", 72, 98, 36.8, 45, 85, "Low", 0.2, false, 90000⟩],
         [], [], 2, 0, 0⟩ 100000).readings :=
  (C8_retention_cutoff _ 100000).2 _
    (List.mem_cons_of_mem _ (List.mem_cons_self _ _)) (by norm_num)

/-- C9: when no stored reading matches the device and time window, the
history endpoint answers with all-empty columns instead of an error. -/
theorem C9_history_empty (st : SystemState) (device_id : String) (hours now : ℤ)
    (h : st.readings.filter
        (fun r => r.device_id = device_id ∧ r.timestamp ≥ now - hours * 3600) = []) :
    get_historical_data st device_id hours now =
      { timestamps := [], heart_rate := [], spo2 := [], temperature := [],
        risk_scores := [] } := by
  simp only [get_historical_data]
  rw [h]
  rfl

/-- Witness for C9 at the empty store, before any reading exists. -/
theorem C9_history_empty_witness :
    get_historical_data SystemState.empty "ESP32_001" 24 0 =
      { timestamps := [], heart_rate := [], spo2 := [], temperature := [],
        risk_scores := [] } :=
  C9_history_empty SystemState.empty "ESP32_001" 24 0 rfl

/-- C10 counterexample: for the empty device id, which has no stored
readings (the filter on it is empty), the latest-reading endpoint does
not fail with 404: the truthiness guard of `get_latest_readings` skips
the device filter and the endpoint answers 200 with another device's
latest reading. -/
theorem C10_empty_device_returns_other_reading :
    (⟨[⟨0, "ESP32_001", 72, 98, 36.8, 45, 85, "Low", 0.2, false, 0⟩],
      [], [], 1, 0, 0⟩ : SystemState).readings.filter
        (fun r => r.device_id = "") = [] ∧
    get_latest_reading
      ⟨[⟨0, "ESP32_001", 72, 98, 36.8, 45, 85, "Low", 0.2, false, 0⟩],
       [], [], 1, 0, 0⟩ "" =
      Except.ok ⟨0, 72, 98, 36.8, 45, 85, "Low", 0.2, "ESP32_001", 0, false⟩ :=
  ⟨rfl, rfl⟩

/-- C10 (amended): for every non-empty device id with no stored
reading for that device, the latest-reading endpoint fails with 404
"No readings found" while the history endpoint answers with empty
columns in the same situation; for the empty device id the device
filter is skipped, so the 404 is only guaranteed when the store holds
no readings at all. -/
theorem C10_latest_404 (st : SystemState) (device_id : String) (hours now : ℤ)
    (hne : device_id ≠ "")
    (h : st.readings.filter (fun r => r.device_id = device_id) = []) :
    get_latest_reading st device_id = Except.error ⟨404, "No readings found"⟩ ∧
    get_historical_data st device_id hours now =
      { timestamps := [], heart_rate := [], spo2 := [], temperature := [],
        risk_scores := [] } := by
  have hconj : st.readings.filter
      (fun r => r.device_id = device_id ∧ r.timestamp ≥ now - hours * 3600) = [] := by
    rw [List.filter_eq_nil_iff] at h ⊢
    intro a ha
    simp only [decide_eq_true_eq] at h ⊢
    intro hc
    exact h a ha hc.1
  constructor
  · simp only [get_latest_reading, get_latest_readings]
    rw [if_pos hne, h]
    rfl
  · simp only [get_historical_data]
    rw [hconj]
    rfl

/-- Witness for C10: a device with no readings of its own gets the 404
and the empty history even though another device's reading is stored. -/
theorem C10_latest_404_witness :
    get_latest_reading
      ⟨[⟨0, "OTHER", 72, 98, 36.8, 45, 85, "Low", 0.2, false, 0⟩],
       [], [], 1, 0, 0⟩ "ESP32_001" =
      Except.error ⟨404, "No readings found"⟩ ∧
    get_historical_data
      ⟨[⟨0, "OTHER", 72, 98, 36.8, 45, 85, "Low", 0.2, false, 0⟩],
       [], [], 1, 0, 0⟩ "ESP32_001" 24 0 =
      { timestamps := [], heart_rate := [], spo2 := [], temperature := [],
        risk_scores := [] } :=
  C10_latest_404
    ⟨[⟨0, "OTHER", 72, 98, 36.8, 45, 85, "Low", 0.2, false, 0⟩],
     [], [], 1, 0, 0⟩ "ESP32_001" 24 0 (by decide) rfl

end AsthmaMonitor
